import Mathlib

/-!
Shallow embedding of the SHATO command orchestration and validation pipeline.

Source files embedded:
- `robot-validator-api/app/models/commands.py` (pydantic command models),
- `robot-validator-api/app/validators/command_validator.py`
  (`RobotCommandValidator.validate_command`, `_parse_validation_error`,
  `simulate_robot_action`),
- `robot-validator-api/app/main.py` (`execute_command` endpoint),
- `orchestrator-api/app/main.py` (`process` routing logic).

Modelling conventions: JSON parameter values are modelled as integers and
strings (`Value`); floating-point literals are outside the model — every
numeric value appearing in the program's own scenarios is an integer.
Machine-level concerns (HTTP transport, logging, correlation ids) carry no
validation logic and are elided; the validator service is called by the
orchestrator as a function, with call counts recorded in an explicit trace.
-/

set_option autoImplicit false

namespace Shato

/-- A JSON parameter value: an integer or a string. -/
inductive Value where
  | int (n : Int)
  | str (s : String)
  deriving DecidableEq, Repr

/-- A Python dict of command parameters, keys in insertion order. -/
abbrev Params := List (String × Value)

/-- `d.get(k)` / `d[k]` lookup on a parameter dict. -/
def lookupParam (ps : Params) (k : String) : Option Value :=
  match ps with
  | [] => none
  | (k₀, v) :: rest => if k₀ = k then some v else lookupParam rest k

/-- Python `f"{v}"` rendering of a parameter value (no quotes on strings). -/
def fmtValue : Value → String
  | .int n => toString n
  | .str s => s

/-- Python `repr` rendering of a value as it appears inside `str(dict)`. -/
def reprValue : Value → String
  | .int n => toString n
  | .str s => "'" ++ s ++ "'"

/-- Python `str` of a parameter dict, e.g. `\x7b'x': 5, 'y': 7\x7d`. -/
def reprParams (ps : Params) : String :=
  "\x7b" ++ String.intercalate ", " (ps.map fun kv => "'" ++ kv.1 ++ "': " ++ reprValue kv.2)
    ++ "\x7d"

/-- One entry of `pydantic.ValidationError.errors()`: its `type`, `loc`,
`msg` and (for literal errors) `ctx['expected']`. -/
structure FieldError where
  type : String
  loc : List String
  msg : String
  ctxExpected : Option String
  deriving DecidableEq, Repr

/-- pydantic `missing` error for a required `command_params` field. -/
def missingError (field : String) : FieldError :=
  ⟨"missing", ["command_params", field], "Field required", none⟩

/-- pydantic's rendering of the allowed values of a `Literal` field:
`'a' or 'b'`, `'a', 'b' or 'c'`. -/
def expectedLiterals (allowed : List String) : String :=
  match allowed with
  | [] => ""
  | [a] => "'" ++ a ++ "'"
  | [a, b] => "'" ++ a ++ "' or '" ++ b ++ "'"
  | a :: rest => "'" ++ a ++ "', " ++ expectedLiterals rest

/-- pydantic `literal_error` for a `Literal` field. -/
def literalError (field : String) (allowed : List String) : FieldError :=
  ⟨"literal_error", ["command_params", field],
    "Input should be " ++ expectedLiterals allowed, some (expectedLiterals allowed)⟩

/-- Check a `Literal[...]` field: the value must be one of the allowed strings. -/
def literalFieldErrors (field : String) (allowed : List String) (v : Value) : List FieldError :=
  match v with
  | .str s => if s ∈ allowed then [] else [literalError field allowed]
  | .int _ => [literalError field allowed]

/-- pydantic lax-mode numeric coercion: an integer, or a string spelling an
integer (fractional string literals are outside the model). -/
def numberParse : Value → Option Int
  | .int n => some n
  | .str s => s.toInt?

/-- Check a `float` field (`x`, `y`, `angle`): any number coerces. -/
def floatFieldErrors (field : String) (v : Value) : List FieldError :=
  match numberParse v with
  | some _ => []
  | none => [⟨"float_parsing", ["command_params", field],
      "Input should be a valid number, unable to parse string as a number", none⟩]

/-- Check the `repeat_count: int` field together with its
`validate_repeat_count` field validator from `commands.py`. -/
def repeatCountErrors (v : Value) : List FieldError :=
  match numberParse v with
  | none => [⟨"int_parsing", ["command_params", "repeat_count"],
      "Input should be a valid integer, unable to parse string as an integer", none⟩]
  | some n =>
    if n = 0 then
      [⟨"value_error", ["command_params", "repeat_count"],
        "Value error, repeat_count cannot be 0. Use -1 for continuous or >= 1 for finite loops",
        none⟩]
    else if n < -1 then
      [⟨"value_error", ["command_params", "repeat_count"],
        "Value error, repeat_count must be -1 (continuous) or >= 1 for finite loops", none⟩]
    else []

/-- A required model field: absent means a `missing` error, present means
the field's own check runs. -/
def requiredField (ps : Params) (field : String) (check : Value → List FieldError) :
    List FieldError :=
  match lookupParam ps field with
  | none => [missingError field]
  | some v => check v

/-- A model field with a default: absent means no error (the default applies). -/
def optionalField (ps : Params) (field : String) (check : Value → List FieldError) :
    List FieldError :=
  match lookupParam ps field with
  | none => []
  | some v => check v

/-- `MoveToCommandParams`: required `x: float`, `y: float`, in declaration order. -/
def moveToErrors (ps : Params) : List FieldError :=
  requiredField ps "x" (floatFieldErrors "x") ++ requiredField ps "y" (floatFieldErrors "y")

/-- `RotateCommandParams`: required `angle: float`,
`direction: Literal["clockwise", "counter-clockwise"]`, in declaration order. -/
def rotateErrors (ps : Params) : List FieldError :=
  requiredField ps "angle" (floatFieldErrors "angle")
    ++ requiredField ps "direction" (literalFieldErrors "direction" ["clockwise", "counter-clockwise"])

/-- `StartPatrolCommandParams`: required `route_id`, defaulted `speed`
(default `medium`) and `repeat_count` (default `1`), in declaration order. -/
def startPatrolErrors (ps : Params) : List FieldError :=
  requiredField ps "route_id" (literalFieldErrors "route_id" ["first_floor", "bedrooms", "second_floor"])
    ++ optionalField ps "speed" (literalFieldErrors "speed" ["slow", "medium", "fast"])
    ++ optionalField ps "repeat_count" repeatCountErrors

/-- Keys of `RobotCommandValidator.command_models`, in insertion order. -/
def commandModelNames : List String := ["move_to", "rotate", "start_patrol"]

/-- `pydantic.ValidationError.errors()` of `command_models[command](**data)`:
the per-field errors of the nested `command_params` model, in field
declaration order (the outer `command` literal always matches, since the
model is selected by the same name). -/
def modelErrors (command : String) (ps : Params) : List FieldError :=
  if command = "move_to" then moveToErrors ps
  else if command = "rotate" then rotateErrors ps
  else if command = "start_patrol" then startPatrolErrors ps
  else []

/-- `ValidationSuccessResponse` from `responses.py` (its constant
`success = True` field is represented by the branch of `ExecResponse`). -/
structure ValidationSuccessResponse where
  message : String
  command : String
  command_params : Params
  deriving DecidableEq, Repr

/-- `ValidationErrorResponse` from `responses.py` (constant `success = False`). -/
structure ValidationErrorResponse where
  error : String
  details : Option String
  deriving DecidableEq, Repr

/-- `' -> '.join(loc)` as built by `_parse_validation_error`. -/
def fieldPath (loc : List String) : String := String.intercalate " -> " loc

/-- `RobotCommandValidator._parse_validation_error`: renders the FIRST entry
of `error.errors()` as a human-readable message. -/
def parse_validation_error (errors : List FieldError) : String :=
  match errors with
  | [] => "Unknown validation error"
  | firstError :: _ =>
    if firstError.type = "missing" then
      "Missing required key '" ++ firstError.loc.getLastD "" ++ "'"
    else if firstError.type = "literal_error" then
      "Invalid value for '" ++ fieldPath firstError.loc ++ "'. Expected one of: "
        ++ firstError.ctxExpected.getD "unknown"
    else if firstError.type = "type_error" then
      "Wrong data type for '" ++ fieldPath firstError.loc ++ "'. "
        ++ (firstError.msg.replace "Input should be " "")
    else firstError.msg

/-- Abridged stand-in for Python `str(e)` on a `ValidationError` (used only
for the `details` field of schema-violation responses; no claim depends on
its exact text). -/
def strValidationError (command : String) (errors : List FieldError) : String :=
  toString errors.length ++ " validation error(s) for " ++ command

/-- The unknown-command `ValidationErrorResponse` built by `validate_command`. -/
def unknownCommandError (command : String) : ValidationErrorResponse :=
  ⟨"Invalid command. Reason: Unknown command name '" ++ command ++ "'",
    some ("Valid commands are: " ++ String.intercalate ", " commandModelNames)⟩

/-- `RobotCommandValidator.validate_command`: returns the tuple
`(is_valid, success_response, error_response)`. -/
def validate_command (command : String) (command_params : Params) :
    Bool × Option ValidationSuccessResponse × Option ValidationErrorResponse :=
  if command ∉ commandModelNames then
    (false, none, some (unknownCommandError command))
  else
    match modelErrors command command_params with
    | [] =>
      (true,
        some ⟨"Received and validated command: '" ++ command ++ "' with params "
            ++ reprParams command_params, command, command_params⟩,
        none)
    | e :: rest =>
      (false, none,
        some ⟨"Invalid params for '" ++ command ++ "': " ++ parse_validation_error (e :: rest),
          some (strValidationError command (e :: rest))⟩)

/-- `simulate_robot_action` from `command_validator.py`. `none` models a
`KeyError` escaping on a missing required key (`command_params["x"]` etc.);
the final branch returns the `Unknown command in simulation` text as an
ordinary result string, exactly as the source does. -/
def simulate_robot_action (command : String) (command_params : Params) : Option String :=
  if command = "move_to" then
    match lookupParam command_params "x", lookupParam command_params "y" with
    | some x, some y =>
      some ("SIMULATION: Robot navigating to coordinates (" ++ fmtValue x ++ ", " ++ fmtValue y ++ ")")
    | _, _ => none
  else if command = "rotate" then
    match lookupParam command_params "angle", lookupParam command_params "direction" with
    | some angle, some direction =>
      some ("SIMULATION: Robot rotating " ++ fmtValue angle ++ " degrees " ++ fmtValue direction)
    | _, _ => none
  else if command = "start_patrol" then
    match lookupParam command_params "route_id" with
    | some route_id =>
      let speed := (lookupParam command_params "speed").getD (.str "medium")
      let repeat_count := (lookupParam command_params "repeat_count").getD (.int 1)
      let repeatMsg :=
        if repeat_count = Value.int (-1) then "continuous patrol"
        else fmtValue repeat_count ++ " time(s)"
      some ("SIMULATION: Robot starting " ++ fmtValue route_id ++ " patrol at " ++ fmtValue speed
          ++ " speed, repeating " ++ repeatMsg)
    | none => none
  else
    some ("Unknown command in simulation: " ++ command)

/-- The HTTP response of the `/execute_command` endpoint: one of the two
pydantic response models (`success` field `true` resp. `false`), or an HTTP
500 whose body carries no top-level `success` key. -/
inductive ExecResponse where
  | success (r : ValidationSuccessResponse)
  | failure (r : ValidationErrorResponse)
  | serverError (detail : String)
  deriving DecidableEq, Repr

/-- The `is_valid` branch of the `execute_command` endpoint: run
`simulate_robot_action`, append its result to the success message, return the
success response. A `KeyError` in the simulation is caught by the endpoint's
`except` clause as an HTTP 500 (detail text abridged). -/
def simulateAndRespond (sr : ValidationSuccessResponse) (command : String)
    (command_params : Params) : ExecResponse :=
  match simulate_robot_action command command_params with
  | some sim => .success { sr with message := sr.message ++ ". " ++ sim }
  | none => .serverError "Unexpected error processing command"

/-- The `/execute_command` endpoint from the validator service's `main.py`,
paired with the number of `simulate_robot_action` calls it makes. -/
def execute_command (command : String) (command_params : Params) : ExecResponse × Nat :=
  match validate_command command command_params with
  | (true, some sr, _) => (simulateAndRespond sr command command_params, 1)
  | (true, none, _) => (.serverError "Unexpected error processing command", 1)
  | (false, _, some er) => (.failure er, 0)
  | (false, _, none) => (.serverError "Unexpected error processing command", 0)

/-- The JSON payload of the LLM service's `/generate_response`:
`\x7bresponse, command, command_params\x7d` (for chat replies `command` is
`null` and `command_params`, also `null` in the source, is never read by the
Router). -/
structure LLMData where
  response : String
  command : Option String
  command_params : Params
  deriving DecidableEq, Repr

/-- `validator_data.get("success", False)`: an HTTP 500 body has no
top-level `success` key, so it reads as `False`. -/
def execSuccess : ExecResponse → Bool
  | .success _ => true
  | _ => false

/-- `validator_data.get("error", "Validation failed")`. -/
def execErrorD : ExecResponse → String
  | .failure er => er.error
  | _ => "Validation failed"

/-- `validator_data.get("message")`. -/
def execMessage : ExecResponse → Option String
  | .success sr => some sr.message
  | _ => none

/-- How many times one `/process` request called each collaborator. -/
structure Trace where
  llmCalls : Nat
  validatorCalls : Nat
  simulatorCalls : Nat
  deriving DecidableEq, Repr

/-- The two return shapes of `/process`: the chat path returns the LLM
payload unchanged; the command path returns the (possibly retried) LLM
payload merged with a `validation_result` key. -/
inductive ProcessResult where
  | chat (d : LLMData)
  | command (d : LLMData) (validation_result : Option String)
  deriving DecidableEq, Repr

/-- The `/process` endpoint of `orchestrator-api/app/main.py`. `gen` is the
Generation Client: its argument is the `retry_context` of the request sent to
`/generate_response` (`none` on the first attempt). Validation is the
embedded `/execute_command` endpoint. The returned `Trace` counts the calls
made to the LLM service, the validator service and, inside the latter,
`simulate_robot_action`. -/
def process (gen : Option String → LLMData) : ProcessResult × Trace :=
  let llm1 := gen none
  match llm1.command with
  | some cmd =>
    let v := execute_command cmd llm1.command_params
    if execSuccess v.1 then
      (.command llm1 (execMessage v.1), ⟨1, 1, v.2⟩)
    else
      let llm2 := gen (some (execErrorD v.1))
      (.command llm2 none, ⟨2, 1, v.2⟩)
  | none => (.chat llm1, ⟨1, 0, 0⟩)

/-! ## Helper lemmas -/

lemma modelErrors_move_to (p : Params) : modelErrors "move_to" p = moveToErrors p := rfl

lemma modelErrors_rotate (p : Params) : modelErrors "rotate" p = rotateErrors p := rfl

lemma modelErrors_start_patrol (p : Params) :
    modelErrors "start_patrol" p = startPatrolErrors p := rfl

lemma parse_error_first (e : FieldError) (rest : List FieldError) :
    parse_validation_error (e :: rest) = parse_validation_error [e] := rfl

lemma validate_command_valid_iff (c : String) (p : Params) (hc : c ∈ commandModelNames) :
    (validate_command c p).1 = true ↔ modelErrors c p = [] := by
  unfold validate_command
  rw [if_neg (not_not_intro hc)]
  split <;> simp_all

lemma validate_command_valid_mem (c : String) (p : Params) :
    (validate_command c p).1 = true → c ∈ commandModelNames := by
  by_cases hc : c ∈ commandModelNames
  · exact fun _ => hc
  · intro h
    unfold validate_command at h
    rw [if_pos hc] at h
    simp at h

lemma validate_command_invalid_error (c : String) (p : Params) (e : FieldError)
    (rest : List FieldError) (hc : c ∈ commandModelNames) (h : modelErrors c p = e :: rest) :
    (validate_command c p).2.2 =
      some ⟨"Invalid params for '" ++ c ++ "': " ++ parse_validation_error (e :: rest),
        some (strValidationError c (e :: rest))⟩ := by
  unfold validate_command
  rw [if_neg (not_not_intro hc), h]

lemma requiredField_nil (ps : Params) (field : String) (check : Value → List FieldError)
    (h : requiredField ps field check = []) : (lookupParam ps field).isSome = true := by
  unfold requiredField at h
  cases hl : lookupParam ps field <;> simp [hl] at h ⊢

/-! ## Claim theorems -/

/-- Claim C4: for every command name outside `\x7bmove_to, rotate,
start_patrol\x7d` and every parameter mapping, `validate_command` returns the
Invalid outcome with error `Invalid command. Reason: Unknown command name
'<name>'` and details listing the three valid command names; the right-hand
side does not depend on the parameters, so they are never checked against any
parameter schema. -/
theorem unknown_command_closure (c : String) (p : Params) (h : c ∉ commandModelNames) :
    validate_command c p =
      (false, none,
        some ⟨"Invalid command. Reason: Unknown command name '" ++ c ++ "'",
          some "Valid commands are: move_to, rotate, start_patrol"⟩) := by
  unfold validate_command
  rw [if_pos h]
  rfl

/-- Witness for C4 at command `fly` with a nonempty parameter mapping. -/
theorem unknown_command_closure_witness :
    validate_command "fly" [("x", Value.int 1)] =
      (false, none,
        some ⟨"Invalid command. Reason: Unknown command name 'fly'",
          some "Valid commands are: move_to, rotate, start_patrol"⟩) :=
  unknown_command_closure "fly" [("x", Value.int 1)] (by decide)

/-- Claim C8: for every command name and parameter mapping, the result of
`validate_command` populates exactly one of the success and failure branches,
never both and never neither, the `is_valid` flag agrees with which branch is
populated, and on success the message is
`Received and validated command: '<name>' with params <parameters>`. -/
theorem validation_outcome_tagged (c : String) (p : Params) :
    (((validate_command c p).2.1.isSome ∧ (validate_command c p).2.2 = none)
      ∨ ((validate_command c p).2.1 = none ∧ (validate_command c p).2.2.isSome))
    ∧ ((validate_command c p).1 = true ↔ (validate_command c p).2.1.isSome)
    ∧ ((validate_command c p).1 = true →
        (validate_command c p).2.1 =
          some ⟨"Received and validated command: '" ++ c ++ "' with params " ++ reprParams p,
            c, p⟩) := by
  unfold validate_command
  split
  · simp
  · split <;> simp

/-- Witness for C8 at a valid input and at an invalid one. -/
theorem validation_outcome_tagged_witness :
    ((validate_command "move_to" [("x", Value.int 5), ("y", Value.int 7)]).1 = true ↔
      (validate_command "move_to" [("x", Value.int 5), ("y", Value.int 7)]).2.1.isSome)
    ∧ (((validate_command "rotate" []).2.1.isSome ∧ (validate_command "rotate" []).2.2 = none)
      ∨ ((validate_command "rotate" []).2.1 = none ∧ (validate_command "rotate" []).2.2.isSome)) :=
  ⟨(validation_outcome_tagged "move_to" [("x", Value.int 5), ("y", Value.int 7)]).2.1,
    (validation_outcome_tagged "rotate" []).1⟩

/-- Claim C10: whenever `validate_command` returns a Valid outcome, every
dictionary key `simulate_robot_action` accesses on that same raw parameter
mapping is present, so the simulation never fails (no `KeyError`) on a
validated input. -/
theorem validated_simulation_total (c : String) (p : Params)
    (h : (validate_command c p).1 = true) : (simulate_robot_action c p).isSome = true := by
  have hc := validate_command_valid_mem c p h
  have herr := (validate_command_valid_iff c p hc).mp h
  have hc3 : c = "move_to" ∨ c = "rotate" ∨ c = "start_patrol" := by
    simpa [commandModelNames] using hc
  rcases hc3 with rfl | rfl | rfl
  · rw [modelErrors_move_to] at herr
    unfold moveToErrors at herr
    rcases List.append_eq_nil.mp herr with ⟨h1, h2⟩
    rcases Option.isSome_iff_exists.mp (requiredField_nil _ _ _ h1) with ⟨vx, hvx⟩
    rcases Option.isSome_iff_exists.mp (requiredField_nil _ _ _ h2) with ⟨vy, hvy⟩
    simp [simulate_robot_action, hvx, hvy]
  · rw [modelErrors_rotate] at herr
    unfold rotateErrors at herr
    rcases List.append_eq_nil.mp herr with ⟨h1, h2⟩
    rcases Option.isSome_iff_exists.mp (requiredField_nil _ _ _ h1) with ⟨va, hva⟩
    rcases Option.isSome_iff_exists.mp (requiredField_nil _ _ _ h2) with ⟨vd, hvd⟩
    simp [simulate_robot_action, hva, hvd]
  · rw [modelErrors_start_patrol] at herr
    unfold startPatrolErrors at herr
    rcases List.append_eq_nil.mp herr with ⟨h12, _⟩
    rcases List.append_eq_nil.mp h12 with ⟨h1, _⟩
    rcases Option.isSome_iff_exists.mp (requiredField_nil _ _ _ h1) with ⟨vr, hvr⟩
    simp [simulate_robot_action, hvr]

/-- Witness for C10 at the validated `move_to` input `x = 5, y = 7`. -/
theorem validated_simulation_total_witness :
    (simulate_robot_action "move_to" [("x", Value.int 5), ("y", Value.int 7)]).isSome = true :=
  validated_simulation_total "move_to" [("x", Value.int 5), ("y", Value.int 7)] (by decide)

lemma startPatrolErrors_route_repeat (n : Int) :
    startPatrolErrors [("route_id", Value.str "bedrooms"), ("repeat_count", Value.int n)] =
      (if n = 0 then
        [⟨"value_error", ["command_params", "repeat_count"],
          "Value error, repeat_count cannot be 0. Use -1 for continuous or >= 1 for finite loops",
          none⟩]
      else if n < -1 then
        [⟨"value_error", ["command_params", "repeat_count"],
          "Value error, repeat_count must be -1 (continuous) or >= 1 for finite loops", none⟩]
      else []) := by
  simp [startPatrolErrors, requiredField, optionalField, lookupParam, literalFieldErrors,
    repeatCountErrors, numberParse]

/-- Claim C5: `start_patrol` validation of `repeat_count` accepts exactly
`-1` and every integer `≥ 1` and rejects everything else; `repeat_count = 0`
is always Invalid and carries the constraint-specific message; `-1` and `5`
are Valid; absent `repeat_count` defaults to `1` and absent `speed` defaults
to `medium` (both visible in the simulated message). -/
theorem start_patrol_repeat_count_law :
    (∀ n : Int,
        (validate_command "start_patrol"
            [("route_id", Value.str "bedrooms"), ("repeat_count", Value.int n)]).1 = true
          ↔ (n = -1 ∨ 1 ≤ n))
    ∧ (∀ p : Params, lookupParam p "repeat_count" = some (Value.int 0) →
        (validate_command "start_patrol" p).1 = false)
    ∧ ((validate_command "start_patrol"
          [("route_id", Value.str "bedrooms"), ("repeat_count", Value.int 0)]).2.2.map
          ValidationErrorResponse.error
        = some "Invalid params for 'start_patrol': Value error, repeat_count cannot be 0. Use -1 for continuous or >= 1 for finite loops")
    ∧ (validate_command "start_patrol"
          [("route_id", Value.str "bedrooms"), ("repeat_count", Value.int (-1))]).1 = true
    ∧ (validate_command "start_patrol"
          [("route_id", Value.str "bedrooms"), ("repeat_count", Value.int 5)]).1 = true
    ∧ (validate_command "start_patrol" [("route_id", Value.str "bedrooms")]).1 = true
    ∧ simulate_robot_action "start_patrol" [("route_id", Value.str "bedrooms")]
        = some "SIMULATION: Robot starting bedrooms patrol at medium speed, repeating 1 time(s)" := by
  refine ⟨?_, ?_, by decide, by decide, by decide, by decide, by decide⟩
  · intro n
    rw [validate_command_valid_iff _ _ (by decide), modelErrors_start_patrol,
      startPatrolErrors_route_repeat]
    split_ifs with h0 h1 <;> simp <;> omega
  · intro p h
    cases hb : (validate_command "start_patrol" p).1
    · rfl
    · exfalso
      have hm := (validate_command_valid_iff "start_patrol" p (by decide)).mp hb
      rw [modelErrors_start_patrol] at hm
      unfold startPatrolErrors at hm
      rcases List.append_eq_nil.mp hm with ⟨-, h3⟩
      simp only [optionalField, h] at h3
      simp [repeatCountErrors, numberParse] at h3

/-- Witness for C5: `repeat_count = 5` is accepted and `repeat_count = 0` is
rejected, at concrete inputs. -/
theorem start_patrol_repeat_count_law_witness :
    (validate_command "start_patrol"
        [("route_id", Value.str "bedrooms"), ("repeat_count", Value.int 5)]).1 = true
    ∧ (validate_command "start_patrol" [("repeat_count", Value.int 0)]).1 = false :=
  ⟨(start_patrol_repeat_count_law.1 5).mpr (Or.inr (by norm_num)),
    start_patrol_repeat_count_law.2.1 [("repeat_count", Value.int 0)] (by decide)⟩

/-- Claim C6: the simulated message per command — `move_to` yields
`Robot navigating to coordinates (x, y)` (so `x=5, y=7` yields `(5, 7)`),
`rotate` yields `Robot rotating <angle> degrees <direction>`, and
`start_patrol` uses the `continuous patrol` phrasing iff the raw
`repeat_count` value equals `-1`, otherwise `<N> time(s)`. -/
theorem simulate_message_shapes :
    (∀ (p : Params) (x y : Value), lookupParam p "x" = some x → lookupParam p "y" = some y →
        simulate_robot_action "move_to" p =
          some ("SIMULATION: Robot navigating to coordinates ("
            ++ fmtValue x ++ ", " ++ fmtValue y ++ ")"))
    ∧ (∀ (p : Params) (a d : Value),
        lookupParam p "angle" = some a → lookupParam p "direction" = some d →
        simulate_robot_action "rotate" p =
          some ("SIMULATION: Robot rotating " ++ fmtValue a ++ " degrees " ++ fmtValue d))
    ∧ (∀ (p : Params) (r : Value), lookupParam p "route_id" = some r →
        simulate_robot_action "start_patrol" p =
          some ("SIMULATION: Robot starting " ++ fmtValue r ++ " patrol at "
            ++ fmtValue ((lookupParam p "speed").getD (Value.str "medium"))
            ++ " speed, repeating "
            ++ (if (lookupParam p "repeat_count").getD (Value.int 1) = Value.int (-1)
                then "continuous patrol"
                else fmtValue ((lookupParam p "repeat_count").getD (Value.int 1)) ++ " time(s)")))
    ∧ simulate_robot_action "move_to" [("x", Value.int 5), ("y", Value.int 7)]
        = some "SIMULATION: Robot navigating to coordinates (5, 7)"
    ∧ simulate_robot_action "rotate" [("angle", Value.int 90), ("direction", Value.str "clockwise")]
        = some "SIMULATION: Robot rotating 90 degrees clockwise"
    ∧ simulate_robot_action "start_patrol"
          [("route_id", Value.str "bedrooms"), ("repeat_count", Value.int (-1))]
        = some "SIMULATION: Robot starting bedrooms patrol at medium speed, repeating continuous patrol"
    ∧ simulate_robot_action "start_patrol"
          [("route_id", Value.str "bedrooms"), ("repeat_count", Value.int 2)]
        = some "SIMULATION: Robot starting bedrooms patrol at medium speed, repeating 2 time(s)" := by
  refine ⟨?_, ?_, ?_, by decide, by decide, by decide, by decide⟩
  · intro p x y hx hy
    simp [simulate_robot_action, hx, hy]
  · intro p a d ha hd
    simp [simulate_robot_action, ha, hd]
  · intro p r hr
    simp [simulate_robot_action, hr]

/-- Witness for C6 at the `move_to` scenario `x = 5, y = 7`. -/
theorem simulate_message_shapes_witness :
    simulate_robot_action "move_to" [("x", Value.int 5), ("y", Value.int 7)] =
      some ("SIMULATION: Robot navigating to coordinates ("
        ++ fmtValue (Value.int 5) ++ ", " ++ fmtValue (Value.int 7) ++ ")") :=
  simulate_message_shapes.1 [("x", Value.int 5), ("y", Value.int 7)]
    (Value.int 5) (Value.int 7) rfl rfl

/-- Claim C9: validation reports only the first violation in declaration
order (fail-fast): for any known command the reported error renders only the
first entry of the error list; omitting `x` (or `y`) for `move_to` yields
`Missing required key 'x'` (resp. `'y'`); `rotate` without `direction`
mentions `direction`; with both `x` and `y` missing only `x` is cited. -/
theorem validation_fail_fast :
    (∀ (c : String) (p : Params) (e : FieldError) (rest : List FieldError),
        c ∈ commandModelNames → modelErrors c p = e :: rest →
        (validate_command c p).2.2.map ValidationErrorResponse.error =
          some ("Invalid params for '" ++ c ++ "': " ++ parse_validation_error [e]))
    ∧ (∀ p : Params, lookupParam p "x" = none →
        (validate_command "move_to" p).1 = false
        ∧ (validate_command "move_to" p).2.2.map ValidationErrorResponse.error =
            some "Invalid params for 'move_to': Missing required key 'x'")
    ∧ (∀ (p : Params) (n : Int), lookupParam p "x" = some (Value.int n) →
        lookupParam p "y" = none →
        (validate_command "move_to" p).2.2.map ValidationErrorResponse.error =
          some "Invalid params for 'move_to': Missing required key 'y'")
    ∧ (validate_command "rotate" [("angle", Value.int 90)]).2.2.map ValidationErrorResponse.error
        = some "Invalid params for 'rotate': Missing required key 'direction'"
    ∧ (validate_command "move_to" []).2.2.map ValidationErrorResponse.error
        = some "Invalid params for 'move_to': Missing required key 'x'" := by
  refine ⟨?_, ?_, ?_, by decide, by decide⟩
  · intro c p e rest hc h
    rw [validate_command_invalid_error c p e rest hc h, parse_error_first]
    rfl
  · intro p h
    have hm : modelErrors "move_to" p =
        missingError "x" :: requiredField p "y" (floatFieldErrors "y") := by
      rw [modelErrors_move_to]
      unfold moveToErrors
      rw [show requiredField p "x" (floatFieldErrors "x") = [missingError "x"] from by
        unfold requiredField; rw [h]]
      rfl
    constructor
    · cases hb : (validate_command "move_to" p).1
      · rfl
      · exfalso
        have he := (validate_command_valid_iff "move_to" p (by decide)).mp hb
        rw [hm] at he
        simp at he
    · rw [validate_command_invalid_error "move_to" p _ _ (by decide) hm]
      rfl
  · intro p n hx hy
    have hm : modelErrors "move_to" p = [missingError "y"] := by
      rw [modelErrors_move_to]
      unfold moveToErrors
      rw [show requiredField p "x" (floatFieldErrors "x") = [] from by
          unfold requiredField; rw [hx]; rfl,
        show requiredField p "y" (floatFieldErrors "y") = [missingError "y"] from by
          unfold requiredField; rw [hy]]
      rfl
    rw [validate_command_invalid_error "move_to" p _ _ (by decide) hm]
    rfl

/-- A Generation Client that always proposes the unknown command `fly`; on
the retry attempt it echoes the received retry context in its reply text. -/
def genInvalidCommand : Option String → LLMData
  | none => ⟨"first reply", some "fly", []⟩
  | some e => ⟨"second reply after: " ++ e, some "fly", []⟩

/-- A Generation Client that always returns a conversational reply. -/
def genChatOnly : Option String → LLMData
  | _ => ⟨"hello there", none, []⟩

/-- Claim C3: if the first proposal's command is `null`, the Router returns
the reply verbatim and neither the Validator service nor the Simulator is
ever invoked for that request (and no retry happens either). -/
theorem chat_bypass (gen : Option String → LLMData) (h : (gen none).command = none) :
    (process gen).1 = ProcessResult.chat (gen none)
    ∧ (process gen).2 = ⟨1, 0, 0⟩ := by
  unfold process
  simp [h]

/-- Witness for C3 at a concrete chat-only Generation Client. -/
theorem chat_bypass_witness :
    (process genChatOnly).1 = ProcessResult.chat (genChatOnly none)
    ∧ (process genChatOnly).2 = ⟨1, 0, 0⟩ :=
  chat_bypass genChatOnly rfl

/-- Claim C1, counterexample: at a request whose first (and only) validation
outcome is Invalid, the Router calls the validator service exactly once — the
retried proposal is never submitted to the Validator again, so no second
validation outcome exists to decide the request's termination. -/
theorem router_retry_skips_revalidation_cex :
    execSuccess (execute_command "fly" []).1 = false
    ∧ (process genInvalidCommand).2.validatorCalls = 1
    ∧ ¬ (process genInvalidCommand).2.validatorCalls = 2 := by
  decide

/-- Claim C1 as amended: for every request whose first validation outcome is
Invalid, the Router invokes the Generation Client a second time with the
validation error as retry context, but does not submit the retried proposal
to the Validator; it terminates by returning the retried generation's payload
with a `null` validation result. -/
theorem router_retry_without_revalidation (gen : Option String → LLMData) (cmd : String)
    (hcmd : (gen none).command = some cmd)
    (hinv : execSuccess (execute_command cmd (gen none).command_params).1 = false) :
    (process gen).1 =
      ProcessResult.command
        (gen (some (execErrorD (execute_command cmd (gen none).command_params).1))) none
    ∧ (process gen).2 = ⟨2, 1, (execute_command cmd (gen none).command_params).2⟩ := by
  unfold process
  simp [hcmd, hinv]

/-- Witness for the amended C1 at the concrete always-`fly` client. -/
theorem router_retry_without_revalidation_witness :
    (process genInvalidCommand).1 =
      ProcessResult.command
        (genInvalidCommand (some (execErrorD (execute_command "fly" []).1))) none
    ∧ (process genInvalidCommand).2 = ⟨2, 1, (execute_command "fly" []).2⟩ :=
  router_retry_without_revalidation genInvalidCommand "fly" rfl (by decide)

/-- Claim C2: the retry path is traversed at most once — for every request
the Generation Client is called at most twice (and the validator service at
most once); and when the validator judges both the first proposal and the
retried proposal Invalid, the Generation Client is called exactly twice and
the request terminates with a `null` validation result (the failure shape of
the command path), never a third time. -/
theorem router_retry_bound (gen : Option String → LLMData) :
    ((process gen).2.llmCalls ≤ 2 ∧ (process gen).2.validatorCalls ≤ 1)
    ∧ (∀ cmd, (gen none).command = some cmd →
        execSuccess (execute_command cmd (gen none).command_params).1 = false →
        (∀ cmd₂,
          (gen (some (execErrorD (execute_command cmd (gen none).command_params).1))).command
            = some cmd₂ →
          execSuccess (execute_command cmd₂
            (gen (some (execErrorD
              (execute_command cmd (gen none).command_params).1))).command_params).1 = false) →
        (process gen).2.llmCalls = 2
        ∧ (process gen).1 =
            ProcessResult.command
              (gen (some (execErrorD (execute_command cmd (gen none).command_params).1)))
              none) := by
  constructor
  · unfold process
    cases h : (gen none).command
    · simp [h]
    · simp only [h]
      split <;> simp
  · intro cmd hcmd hinv _
    unfold process
    simp [hcmd, hinv]

/-- Witness for C2: the always-`fly` client is judged Invalid on both
attempts; the Generation Client runs exactly twice. -/
theorem router_retry_bound_witness :
    (process genInvalidCommand).2.llmCalls = 2 :=
  ((router_retry_bound genInvalidCommand).2 "fly" rfl (by decide)
    (fun cmd₂ h2 => by
      have h3 : cmd₂ = "fly" := by simpa [genInvalidCommand] using h2.symm
      subst h3
      decide)).1

/-- Claim C7, counterexample: an unknown command reaching the Simulator is
not reported as a distinct error outcome — `simulate_robot_action` returns
the text `Unknown command in simulation: fly` as an ordinary result string,
and the `is_valid` branch of `execute_command` folds it into a response whose
`success` flag is `true`. -/
theorem simulator_unknown_success_cex :
    simulate_robot_action "fly" [] = some "Unknown command in simulation: fly"
    ∧ simulateAndRespond ⟨"msg", "fly", []⟩ "fly" []
        = ExecResponse.success ⟨"msg. Unknown command in simulation: fly", "fly", []⟩
    ∧ execSuccess (simulateAndRespond ⟨"msg", "fly", []⟩ "fly" []) = true := by
  decide

/-- Claim C7 as amended: if a command name outside the closed set reaches the
Simulator, the Simulator never raises — it returns the string
`Unknown command in simulation: <name>` — but the condition is folded into
the caller's success path: the resulting response has `success = true` with
the text appended to the message, not a distinct InternalError outcome. -/
theorem simulator_unknown_swallowed (c : String) (p : Params)
    (sr : ValidationSuccessResponse) (h : c ∉ commandModelNames) :
    simulate_robot_action c p = some ("Unknown command in simulation: " ++ c)
    ∧ simulateAndRespond sr c p =
        ExecResponse.success
          { sr with message := sr.message ++ ". " ++ ("Unknown command in simulation: " ++ c) }
    ∧ execSuccess (simulateAndRespond sr c p) = true := by
  have h1 : c ≠ "move_to" := by rintro rfl; exact h (by decide)
  have h2 : c ≠ "rotate" := by rintro rfl; exact h (by decide)
  have h3 : c ≠ "start_patrol" := by rintro rfl; exact h (by decide)
  have hs : simulate_robot_action c p = some ("Unknown command in simulation: " ++ c) := by
    unfold simulate_robot_action
    rw [if_neg h1, if_neg h2, if_neg h3]
  refine ⟨hs, ?_, ?_⟩
  · unfold simulateAndRespond
    rw [hs]
  · unfold simulateAndRespond
    rw [hs]
    rfl

/-- Witness for the amended C7 at command `fly`. -/
theorem simulator_unknown_swallowed_witness :
    simulate_robot_action "fly" [("x", Value.int 1)]
        = some ("Unknown command in simulation: " ++ "fly")
    ∧ simulateAndRespond ⟨"m", "fly", [("x", Value.int 1)]⟩ "fly" [("x", Value.int 1)] =
        ExecResponse.success
          ⟨"m" ++ ". " ++ ("Unknown command in simulation: " ++ "fly"), "fly",
            [("x", Value.int 1)]⟩
    ∧ execSuccess (simulateAndRespond ⟨"m", "fly", [("x", Value.int 1)]⟩ "fly"
        [("x", Value.int 1)]) = true :=
  simulator_unknown_swallowed "fly" [("x", Value.int 1)] ⟨"m", "fly", [("x", Value.int 1)]⟩
    (by decide)

/-- Witness for C9: `move_to` with only `y` present reports the missing `x`;
the generic first-violation rule applied at `rotate` missing `direction`. -/
theorem validation_fail_fast_witness :
    (validate_command "move_to" [("y", Value.int 2)]).2.2.map ValidationErrorResponse.error =
      some "Invalid params for 'move_to': Missing required key 'x'"
    ∧ (validate_command "rotate" [("angle", Value.int 90)]).2.2.map ValidationErrorResponse.error =
      some ("Invalid params for 'rotate': " ++ parse_validation_error [missingError "direction"]) :=
  ⟨(validation_fail_fast.2.1 [("y", Value.int 2)] rfl).2,
    validation_fail_fast.1 "rotate" [("angle", Value.int 90)] (missingError "direction") []
      (by decide) (by decide)⟩

end Shato
